import Mathlib

/-!
Verification of the bbblb load balancer core against its natural-language
specification. The definitions below are a shallow embedding of the Python
sources (src/bbblb/model.py, src/bbblb/web/bbbapi.py, src/bbblb/api/bbblbapi.py,
src/bbblb/services/poller.py): SQL statements become pure functions over lists
of rows, ORM sessions become explicit database-state passing, and async HTTP
calls become oracle parameters. Floating point server loads are modelled as
integers: every property checked here only adds and compares loads, and both
operations are exact in this abstraction.
-/

deriving instance DecidableEq for Except

namespace BBBLB

/-! ## Server health (model.py: ServerHealth, Server.mark_error, Server.mark_success) -/

/-- Health states of a backend server, from `class ServerHealth` in model.py. -/
inductive ServerHealth
  /-- All fine, this server will get new meetings. -/
  | AVAILABLE
  /-- Does not get new meetings, but existing meetings are still served. -/
  | UNSTABLE
  /-- Existing meetings are considered zombies and forgotten. -/
  | OFFLINE
deriving DecidableEq, Repr

/-- The health-relevant mutable fields of a Server row. -/
structure HealthState where
  health : ServerHealth
  errors : Nat
  recover : Nat
deriving DecidableEq, Repr

/-- Embedding of `Server.mark_error(fail_threshold)` from model.py. -/
def mark_error (fail_threshold : Nat) (s : HealthState) : HealthState :=
  if s.health = ServerHealth.OFFLINE then
    s  -- Already dead
  else if s.errors < fail_threshold then
    -- Server is failing
    { s with recover := 0, errors := s.errors + 1, health := ServerHealth.UNSTABLE }
  else
    -- Server failed too often, give up
    { s with health := ServerHealth.OFFLINE }

/-- Embedding of `Server.mark_success(recover_threshold)` from model.py. -/
def mark_success (recover_threshold : Nat) (s : HealthState) : HealthState :=
  if s.health = ServerHealth.AVAILABLE then
    s  -- Already healthy
  else if s.recover < recover_threshold then
    -- Server is still recovering
    { s with recover := s.recover + 1, health := ServerHealth.UNSTABLE }
  else
    -- Server fully recovered
    { health := ServerHealth.AVAILABLE, errors := 0, recover := 0 }

/-- Outcome of one poll of a server: the `getMeetings` call succeeded or failed.
In poller.py, `poll_one` calls `mark_success` on success and `mark_error` on
failure. -/
inductive PollOutcome
  | ok
  | err
deriving DecidableEq, Repr

/-- Apply one poll outcome to the health state, as poll_one does. -/
def apply_poll (fail_threshold recover_threshold : Nat) (s : HealthState) :
    PollOutcome → HealthState
  | PollOutcome.ok => mark_success recover_threshold s
  | PollOutcome.err => mark_error fail_threshold s

/-- The sequence of health values observed while applying a sequence of poll
outcomes, starting with the initial health. -/
def health_trace (fail_threshold recover_threshold : Nat) (s : HealthState) :
    List PollOutcome → List ServerHealth
  | [] => [s.health]
  | r :: rs =>
      s.health :: health_trace fail_threshold recover_threshold
        (apply_poll fail_threshold recover_threshold s r) rs

/-- A freshly provisioned server: OFFLINE with zeroed counters (model.py
defaults: health=OFFLINE, errors=0, recover=0). -/
def freshServer : HealthState := ⟨ServerHealth.OFFLINE, 0, 0⟩

/-! ## Webhook forwarding (api/bbblbapi.py: trigger_callback) -/

/-- One pass of the `for i in range(WEBHOOK_RETRY)` loop body of
`trigger_callback` in api/bbblbapi.py, over the remaining loop indices.
Each iteration issues the HTTP request (recorded in the first list). If the
request raises `aiohttp.ClientError` (modelled by `succeeds i = false`) the
handler logs, sleeps `10 * i` seconds (recorded in the second list) and
continues. A successful request falls through to the next loop iteration as
well: the loop body contains no break or return. -/
def trigger_callback_loop (succeeds : Nat → Bool) : List Nat → List Nat × List Nat
  | [] => ([], [])
  | i :: rest =>
      let r := trigger_callback_loop succeeds rest
      if succeeds i then
        (i :: r.1, r.2)
      else
        (i :: r.1, 10 * i :: r.2)

/-- Embedding of `trigger_callback` from api/bbblbapi.py: returns the indices
of the HTTP attempts made and the sleep durations performed, given which
attempts succeed. -/
def trigger_callback (webhook_retry : Nat) (succeeds : Nat → Bool) :
    List Nat × List Nat :=
  trigger_callback_loop succeeds (List.range webhook_retry)

/-! ## Distributed lease (model.py: Lock.try_acquire, Lock.check, Lock.try_release) -/

/-- One row of the `locks` table for a fixed lock name: owner identity and the
`ts` timestamp. Timestamps are integers (e.g. seconds). -/
structure LockRow where
  owner : String
  ts : Int
deriving DecidableEq, Repr

/-- The stale-row DELETE that opens `Lock.try_acquire`: if `force_release` is
given, remove the row when its `ts` is older than `now - force_release`. -/
def force_delete (now : Int) (force_release : Option Int) (row : Option LockRow) :
    Option LockRow :=
  match force_release, row with
  | some fr, some r => if r.ts < now - fr then none else some r
  | _, _ => row

/-- Embedding of `Lock.try_acquire(name, force_release)` from model.py for one
lock name. The table holds at most one row per name (primary key). In one
transaction: run the stale-row delete, then attempt the INSERT of
`(name, me, now)`, which succeeds iff no row remains (unique primary key).
Returns the result of the call and the new table state. -/
def try_acquire (now : Int) (force_release : Option Int) (me : String)
    (row : Option LockRow) : Bool × Option LockRow :=
  match force_delete now force_release row with
  | none => (true, some ⟨me, now⟩)
  | some r => (false, some r)

/-- Embedding of `Lock.check(name)`: UPDATE ts=now WHERE name AND owner=me;
true iff a row matched. -/
def lock_check (now : Int) (me : String) (row : Option LockRow) :
    Bool × Option LockRow :=
  match row with
  | some r => if r.owner = me then (true, some ⟨me, now⟩) else (false, some r)
  | none => (false, none)

/-- Embedding of `Lock.try_release(name)`: DELETE WHERE name AND owner=me;
true iff a row matched. -/
def try_release (me : String) (row : Option LockRow) : Bool × Option LockRow :=
  match row with
  | some r => if r.owner = me then (true, none) else (false, some r)
  | none => (false, none)

/-- The lock row held by owner `p` with timestamp `t` is expired with respect
to an acquire attempt at time `now` with force window `fr`. With no force
window a row never expires. -/
def lease_expired (t : Int) (attempt : Int × Option Int) : Prop :=
  match attempt.2 with
  | some fr => t < attempt.1 - fr
  | none => False

instance (t : Int) (attempt : Int × Option Int) : Decidable (lease_expired t attempt) := by
  unfold lease_expired
  match attempt.2 with
  | some fr => exact inferInstanceAs (Decidable (t < attempt.1 - fr))
  | none => exact inferInstanceAs (Decidable False)

/-- Run a sequence of `try_acquire` attempts by one process `q`, each with its
own `now` timestamp and optional force window, threading the lock-table state.
Returns the list of results and the final state. -/
def run_acquires (q : String) : List (Int × Option Int) → Option LockRow →
    List Bool × Option LockRow
  | [], row => ([], row)
  | a :: as_, row =>
      let r := try_acquire a.1 a.2 q row
      let rest := run_acquires q as_ r.2
      (r.1 :: rest.1, rest.2)

/-! ## Relational data model (model.py: Tenant, Server, Meeting, Callback)

Rows are structures, tables are lists of rows, foreign keys are ids.
Python floats (server load, load factors) are modelled as integers; the
properties checked here only add and compare them. -/

/-- A row of the `tenants` table (the fields the create path uses). -/
structure Tenant where
  id : Nat
  name : String
  realm : String
  secret : String
  enabled : Bool
deriving DecidableEq, Repr

/-- A row of the `servers` table. -/
structure Server where
  id : Nat
  domain : String
  secret : String
  enabled : Bool
  health : ServerHealth
  errors : Nat
  recover : Nat
  load : Int
deriving DecidableEq, Repr

/-- A row of the `meetings` table. The balancer-minted uuid is modelled as a
natural number. `internal_id` is assigned by the backend and nullable. -/
structure Meeting where
  id : Nat
  external_id : String
  internal_id : Option String
  uuid : Nat
  tenant_fk : Nat
  server_fk : Nat
deriving DecidableEq, Repr

/-- Value of `model.CALLBACK_TYPE_END`. -/
def CALLBACK_TYPE_END : String := "END"

/-- Value of `model.CALLBACK_TYPE_REC`. -/
def CALLBACK_TYPE_REC : String := "REC"

/-- A row of the `callbacks` table. -/
structure Callback where
  id : Nat
  uuid : Nat
  type : String
  tenant_fk : Nat
  server_fk : Nat
  forward : Option String
deriving DecidableEq, Repr

/-- The database state touched by the request mediator. -/
structure DB where
  servers : List Server
  meetings : List Meeting
  callbacks : List Callback
deriving DecidableEq, Repr

/-- Modelled from the spec: the configuration record (settings.py is not part
of the sources given). Only the keys used by the embedded code paths appear. -/
structure BBBLBConfig where
  DOMAIN : String
  SECRET : String
  LOADFACTOR_INITIAL : Int
  LOADFACTOR_MEETING : Int
  WEBHOOK_RETRY : Nat
  POLL_FAIL : Nat
  POLL_RECOVER : Nat
deriving Repr

/-! ## Query parameters as an insertion-ordered dictionary

Python dicts preserve insertion order; assignment to an existing key updates
it in place, assignment to a new key appends, `pop` removes. -/

/-- BBB query parameters: an ordered association list of key/value pairs. -/
abbrev Params : Type := List (String × String)

/-- Dictionary lookup `params[k]` / `params.get(k)`. -/
def pget (ps : Params) (k : String) : Option String :=
  (List.find? (fun kv => kv.1 == k) ps).map (fun kv => kv.2)

/-- Dictionary assignment `params[k] = v`: replace in place when the key
exists, append otherwise. -/
def pset (ps : Params) (k v : String) : Params :=
  if (List.find? (fun kv => kv.1 == k) ps).isSome then
    List.map (fun kv => if kv.1 == k then (k, v) else kv) ps
  else
    ps ++ [(k, v)]

/-- Dictionary removal `params.pop(k, None)`: the removed value (if any) and
the remaining parameters. -/
def ppop (ps : Params) (k : String) : Option String × Params :=
  (pget ps k, List.filter (fun kv => kv.1 != k) ps)

/-! ## Server selection (model.py: Server.select_available, Server.select_best) -/

/-- Embedding of `Server.select_available(tenant)`: the rows matching
`enabled AND health = AVAILABLE` (the tenant filter is a TODO in the source
and not applied). -/
def select_available (servers : List Server) : List Server :=
  List.filter (fun s => s.enabled && s.health == ServerHealth.AVAILABLE) servers

/-- Stable insert for a descending sort by load: `s` goes before the first row
with strictly smaller load, so equal loads keep their table order. -/
def insert_load_desc (s : Server) : List Server → List Server
  | [] => [s]
  | t :: ts => if t.load < s.load then s :: t :: ts else t :: insert_load_desc s ts

/-- Stable sort of server rows by load, descending. Embeds the SQL
`ORDER BY servers.load DESC` of `select_best`. -/
def sort_load_desc : List Server → List Server
  | [] => []
  | s :: ss => insert_load_desc s (sort_load_desc ss)

/-- Embedding of `Server.select_best(tenant)` from model.py: the available
servers ordered by `Server.load.desc()`, limit 1. -/
def select_best (servers : List Server) : Option Server :=
  (sort_load_desc (select_available servers)).head?

/-- Embedding of `Server.increment_load_stmt(load)`: the expression-level
UPDATE `SET load = load + delta WHERE id = sid` applied to the table. -/
def increment_load (servers : List Server) (sid : Nat) (delta : Int) : List Server :=
  List.map (fun s => if s.id == sid then { s with load := s.load + delta } else s) servers

/-! ## Meeting lookup and get_or_create (model.py, web/bbbapi.py) -/

/-- The `select_meeting` statement of handle_create:
`Meeting.select(external_id=unscoped_id, tenant=tenant)`, evaluated with
`scalar_one_or_none` (first matching row, if any). -/
def find_meeting (meetings : List Meeting) (tid : Nat) (ext : String) : Option Meeting :=
  List.find? (fun m => m.tenant_fk == tid && m.external_id == ext) meetings

/-- Embedding of `model.get_or_create(session, select_meeting, create)` as used
by handle_create: re-run the select; on a hit return the existing row, on a
miss insert the created row and commit. The IntegrityError branch (a
concurrent writer winning the insert race) cannot occur in this sequential
single-state model. -/
def get_or_create_meeting (db : DB) (tid : Nat) (ext : String) (mk : Unit → Meeting) :
    DB × Meeting × Bool :=
  match find_meeting db.meetings tid ext with
  | some m => (db, m, false)
  | none =>
      let m := mk ()
      ({ db with meetings := db.meetings ++ [m] }, m, true)

/-! ## Scoped meeting ids and callback URLs

utils.py and the checksum/HMAC plumbing are not part of the sources given, so
these are modelled from the spec. -/

/-- Modelled from the spec: `utils.add_scope(id, tenantName)` namespaces an
external meeting id by tenant with a fixed reversible encoding
(spec section 9: any encoding such as tenant-colon-id satisfies the contract). -/
def add_scope (ext : String) (tenantName : String) : String :=
  tenantName ++ ":" ++ ext

/-- Modelled from the spec: `utils.MAX_MEETING_ID_LEN`, the backend's 256
character limit on meeting ids. -/
def MAX_MEETING_ID_LEN : Nat := 256

/-- Modelled from the spec: the hex HMAC-SHA256 digest used to sign callback
URLs. The hash itself is opaque to every claim checked here; only
recomputation equality matters, so it is modelled as a symbolic keyed tag. -/
def hmac_sha256_hex (key msg : String) : String :=
  "hmac-sha256:" ++ key ++ ":" ++ msg

/-- The end-callback signature from `_intercept_callbacks`:
`hmac.digest(SECRET, "bbblb:callback:end:" + uuid, sha256).hex()`. -/
def end_sig (secret : String) (u : Nat) : String :=
  hmac_sha256_hex secret ("bbblb:callback:end:" ++ toString u)

/-- The URL produced by `request.url_for("bbblb:callback_end", uuid, sig)`:
route `v1/callback/.../end/...` mounted at `/api`. -/
def end_callback_url (secret : String) (u : Nat) : String :=
  "/api/v1/callback/" ++ toString u ++ "/end/" ++ end_sig secret u

/-- The URL produced by `request.url_for("bbblb:callback_proxy", uuid, type)`. -/
def proxy_callback_url (u : Nat) (typename : String) : String :=
  "/api/v1/callback/" ++ toString u ++ "/" ++ typename

/-- Python `s.startswith(p)`, computed on the character lists (String's own
prefix test does not reduce in the kernel). -/
def str_startsWith (s p : String) : Bool :=
  List.isPrefixOf p.data s.data

/-- Python `s.endswith(p)`, computed on the character lists. -/
def str_endsWith (s p : String) : Bool :=
  List.isPrefixOf p.data.reverse s.data.reverse

/-- A key matching the recording-ready pattern of `_intercept_callbacks`:
`meta.startswith("meta_") and meta.endswith("-recording-ready-url")`. -/
def is_rec_ready_key (k : String) : Bool :=
  str_startsWith k "meta_" && str_endsWith k "-recording-ready-url"

/-! ## Callback interception (web/bbbapi.py: _intercept_callbacks) -/

/-- Python `s[n:]`, computed on the character list. -/
def py_drop (s : String) (n : Nat) : String :=
  ⟨List.drop n s.data⟩

/-- Python `s[:-n]`, computed on the character list. -/
def py_dropRight (s : String) (n : Nat) : String :=
  ⟨List.take (s.data.length - n) s.data⟩

/-- The typename the source derives for a JWT-style callback key:
`meta[5:-14]`. For "meta_analytics-callback-url" this strips one character
too many on the right ("-callback-url" has 13 characters) and yields
"analytic". -/
def jwt_typename (meta : String) : String :=
  py_dropRight (py_drop meta 5) 14

/-- The END Callback row persisted for an intercepted meetingEndedURL, if
any: only when the parameter was present and the meeting is new. -/
def intercept_end_cbs (orig_url : Option String) (is_new : Bool) (meeting : Meeting)
    (tenant : Tenant) (server : Server) (cid : Nat) : List Callback :=
  match orig_url, is_new with
  | some url, true =>
      [⟨cid, meeting.uuid, CALLBACK_TYPE_END, tenant.id, server.id, some url⟩]
  | _, _ => []

/-- The REC Callback rows persisted for removed recording-ready parameters. -/
def intercept_rec_cbs (rec_urls : List String) (is_new : Bool) (meeting : Meeting)
    (tenant : Tenant) (server : Server) (cid : Nat) : List Callback :=
  if is_new then
    (List.enum rec_urls).map (fun p =>
      ⟨cid + 1 + p.1, meeting.uuid, CALLBACK_TYPE_REC, tenant.id, server.id, some p.2⟩)
  else []

/-- Embedding of `_intercept_callbacks(ctx, params, meeting, is_new)` from
web/bbbapi.py. Returns the rewritten parameters and the list of Callback rows
to persist (empty unless `is_new`). Fresh callback row ids are allocated from
`cid` upward (autoincrement primary key). -/
def intercept_callbacks (cfg : BBBLBConfig) (params : Params) (meeting : Meeting)
    (tenant : Tenant) (server : Server) (is_new : Bool) (cid : Nat) :
    Params × List Callback :=
  -- Replace meetingEndedURL with our own callback, remember the original.
  let popped := ppop params "meetingEndedURL"
  let cbs_end := intercept_end_cbs popped.1 is_new meeting tenant server cid
  let params := pset popped.2 "meetingEndedURL" (end_callback_url cfg.SECRET meeting.uuid)
  -- Remember and remove all variants of the recording-ready callbacks.
  let rec_urls := (List.filter (fun kv => is_rec_ready_key kv.1) params).map (fun kv => kv.2)
  let params := List.filter (fun kv => !is_rec_ready_key kv.1) params
  let cbs_rec := intercept_rec_cbs rec_urls is_new meeting tenant server cid
  -- Known JWT-style callbacks: currently only meta_analytics-callback-url.
  let popped2 := ppop params "meta_analytics-callback-url"
  match popped2.1 with
  | some url =>
      let typename := jwt_typename "meta_analytics-callback-url"
      let cbs_jwt : List Callback :=
        if is_new then
          [⟨cid + 1 + rec_urls.length, meeting.uuid, typename, tenant.id, server.id, some url⟩]
        else []
      let params := pset popped2.2 "meta_analytics-callback-url"
        (proxy_callback_url meeting.uuid typename)
      (params, cbs_end ++ cbs_rec ++ cbs_jwt)
  | none => (params, cbs_end ++ cbs_rec)

/-! ## The create path (web/bbbapi.py: handle_create) -/

/-- Result of phase one of handle_create: database after the transaction
commits, the meeting row, whether this request created it, the (possibly
rewritten) parameters that will be forwarded upstream, and the callback rows
persisted by this request. -/
structure P1Out where
  db : DB
  meeting : Meeting
  created : Bool
  params : Params
  cbs : List Callback
deriving DecidableEq, Repr

/-- Embedding of phase one of `handle_create` (web/bbbapi.py lines 297-357):
parameter checks, lookup of an existing meeting by `(external_id, tenant)`,
otherwise best-server selection, load increment, meeting creation, parameter
rewriting and callback interception. Errors are the BBB messageKey raised.
Fresh ids: `u` is the minted uuid, `mid` the meeting row id, `cid` the first
callback row id. -/
def handle_create_p1 (cfg : BBBLBConfig) (db : DB) (tenant : Tenant)
    (params : Params) (u mid cid : Nat) : Except String P1Out :=
  match pget params "meetingID" with
  | none => Except.error "missingParameterMeetingID"
  | some unscoped_id =>
    let scoped_id := add_scope unscoped_id tenant.name
    if (pget params "name").isNone then Except.error "missingParameterName"
    else if MAX_MEETING_ID_LEN < scoped_id.length then Except.error "sizeError"
    else
      -- Fetch existing meeting, if present
      match find_meeting db.meetings tenant.id unscoped_id with
      | some meeting => Except.ok ⟨db, meeting, false, params, []⟩
      | none =>
        -- Find best server for new meetings (SELECT ... FOR UPDATE)
        match select_best db.servers with
        | none => Except.error "internalError"
        | some server =>
          -- Increase server load NOW (expression-level UPDATE)
          let load := cfg.LOADFACTOR_INITIAL + cfg.LOADFACTOR_MEETING
          let db := { db with servers := increment_load db.servers server.id load }
          -- Try to create the meeting (commits as a side effect)
          let goc := get_or_create_meeting db tenant.id unscoped_id
            (fun _ => ⟨mid, unscoped_id, none, u, tenant.id, server.id⟩)
          let db := goc.1
          let meeting := goc.2.1
          let meeting_created := goc.2.2
          -- Add or replace create parameters
          let params := pset params "meetingID" scoped_id
          let params := pset params "meta_bbblb-uuid" (toString meeting.uuid)
          let params := pset params "meta_bbblb-origin" cfg.DOMAIN
          let params := pset params "meta_bbblb-tenant" tenant.name
          let params := pset params "meta_bbblb-server" server.domain
          -- Fix callback parameters, collect not-yet-persisted callback rows
          let ic := intercept_callbacks cfg params meeting tenant server meeting_created cid
          let params := ic.1
          let cbs := ic.2
          -- Persist new callbacks, if any
          let db := if meeting_created && !cbs.isEmpty then
              { db with callbacks := db.callbacks ++ cbs }
            else db
          Except.ok ⟨db, meeting, meeting_created, params, cbs⟩

/-- Embedding of phase two of `handle_create` (web/bbbapi.py lines 359-394):
forward to the backend. On success patch the fresh meeting with the
internalMeetingID returned. On failure, when this request created the
meeting, delete its callback rows and the meeting row, commit, and re-raise
(the second component carries the re-raised error). -/
def handle_create_p2 (db : DB) (meeting : Meeting) (meeting_created : Bool)
    (cbs : List Callback) (upstream : Except String String) : DB × Option String :=
  match upstream with
  | Except.ok internal_id =>
      let upd : Meeting → Meeting := fun m =>
        if m.id == meeting.id then { m with internal_id := some internal_id } else m
      let db := if meeting_created then
          { db with meetings := List.map upd db.meetings }
        else db
      (db, none)
  | Except.error e =>
      let cb_ids := List.map (fun cb => cb.id) cbs
      let db := if meeting_created then
          { db with
            callbacks := List.filter (fun c => !cb_ids.contains c.id) db.callbacks,
            meetings := List.filter (fun m => m.id != meeting.id) db.meetings }
        else db
      (db, some e)

/-- Overall outcome of one `create` request. -/
inductive CreateOutcome
  /-- Rejected before anything was forwarded (BBB error messageKey). -/
  | reject (err : String)
  /-- Forwarded upstream and the upstream call failed; the error is re-raised. -/
  | failed (db : DB) (sent : Params) (err : String)
  /-- Forwarded upstream successfully. -/
  | ok (db : DB) (meeting : Meeting) (created : Bool) (sent : Params)
deriving DecidableEq, Repr

/-- The database state an outcome leaves behind (none for a pre-forward
rejection, which persists nothing). -/
def CreateOutcome.dbOf : CreateOutcome → Option DB
  | CreateOutcome.reject _ => none
  | CreateOutcome.failed db _ _ => some db
  | CreateOutcome.ok db _ _ _ => some db

/-- The error a failed outcome re-raises. -/
def CreateOutcome.failedErr : CreateOutcome → Option String
  | CreateOutcome.failed _ _ e => some e
  | _ => none

/-- Embedding of the whole `handle_create` request: phase one, then the
upstream call on the rewritten parameters (the oracle maps the forwarded
parameters to the backend's response), then phase two. -/
def handle_create (cfg : BBBLBConfig) (db : DB) (tenant : Tenant) (params : Params)
    (u mid cid : Nat) (upstream : Params → Except String String) : CreateOutcome :=
  match handle_create_p1 cfg db tenant params u mid cid with
  | Except.error e => CreateOutcome.reject e
  | Except.ok r =>
      let p2 := handle_create_p2 r.db r.meeting r.created r.cbs (upstream r.params)
      match p2.2 with
      | none => CreateOutcome.ok p2.1 r.meeting r.created r.params
      | some e => CreateOutcome.failed p2.1 r.params e

/-! ## End callback handling (api/bbblbapi.py: handle_callback_end) -/

/-- The END-Callback lookup and delete of `handle_callback_end`: find any END
Callback row with this uuid (`scalar_one_or_none`) and delete it. -/
def delete_end_callback (db : DB) (u : Nat) : DB :=
  match List.find? (fun c => c.uuid == u && c.type == CALLBACK_TYPE_END) db.callbacks with
  | some cb =>
      { db with callbacks := List.filter (fun c => c.id != cb.id) db.callbacks }
  | none => db

/-- The `forget_meeting` step of `handle_callback_end`: delete the Meeting
with this uuid, if still present. -/
def forget_meeting_by_uuid (db : DB) (u : Nat) : DB :=
  match List.find? (fun m => m.uuid == u) db.meetings with
  | some m => { db with meetings := List.filter (fun x => x.id != m.id) db.meetings }
  | none => db

/-- Embedding of `handle_callback_end` from api/bbblbapi.py: verify the HMAC
signature by recomputation; on a match, delete any END Callback row with this
uuid (its forward fires asynchronously, see `trigger_callback`), then forget
the Meeting. Returns the new database and the HTTP status code. -/
def handle_callback_end (cfg : BBBLBConfig) (db : DB) (u : Nat) (sig : String) :
    DB × Nat :=
  if sig ≠ end_sig cfg.SECRET u then
    (db, 401)
  else
    (forget_meeting_by_uuid (delete_end_callback db u) u, 200)

/-! ## Reachable-state machine for the callback invariant

The operations that touch Meeting and Callback rows on the create/end path. -/

/-- An operation of the mediator as far as Meeting and Callback rows are
concerned: a full create request (with its fresh ids and upstream oracle), or
a hit on the end-callback URL. -/
inductive Op
  | create (tenant : Tenant) (params : Params) (u mid cid : Nat)
      (upstream : Params → Except String String)
  | cbEnd (u : Nat) (sig : String)

/-- The database after executing one operation. A rejected create (checksum,
size, missing parameter, no available server) raises before persisting
anything and leaves the database unchanged. -/
def step (cfg : BBBLBConfig) (db : DB) : Op → DB
  | Op.create tenant params u mid cid upstream =>
      (CreateOutcome.dbOf (handle_create cfg db tenant params u mid cid upstream)).getD db
  | Op.cbEnd u sig => (handle_callback_end cfg db u sig).1

/-- The number of active END Callback rows carrying uuid `u`. -/
def countEnd (db : DB) (u : Nat) : Nat :=
  (List.filter (fun c => c.uuid == u && c.type == CALLBACK_TYPE_END) db.callbacks).length

/-- At most one active END Callback row per meeting uuid. -/
def EndCbInv (db : DB) : Prop :=
  ∀ u : Nat, countEnd db u ≤ 1

/-- Freshness side condition for a step: a create operation mints a uuid that
no persisted Callback row carries yet (uuid4 collisions are out of scope). -/
def OpFresh (db : DB) : Op → Prop
  | Op.create _ _ u _ _ _ => ∀ c ∈ db.callbacks, c.uuid ≠ u
  | Op.cbEnd _ _ => True

/-- The claim as the spec words it: every live Meeting has exactly one active
END Callback row with its uuid. -/
def EveryMeetingHasOneEndCb (db : DB) : Prop :=
  ∀ m ∈ db.meetings, countEnd db m.uuid = 1

/-! ## Poller reconciliation (services/poller.py: poll_one) -/

/-- The meeting fields `poll_one` reads: the owning server and the nullable
backend-assigned internal id. -/
structure PMeeting where
  id : Nat
  server_fk : Nat
  internal_id : Option String
deriving DecidableEq, Repr

/-- SQL membership `internal_id IN (...)` as rendered for the DELETE in
poll_one. A NULL column value satisfies no IN-list, and NULL elements of the
list match nothing, so only equal non-null values match. -/
def sql_in (v : Option String) (ids : List (Option String)) : Bool :=
  match v with
  | none => false
  | some s => List.contains ids (some s)

/-- The `forget_ids` set of poll_one: the internal ids of this server's
meetings that are not in the live set reported by the backend. In the source
the server's meetings are first keyed by `internal_id` in a dict, which
collapses duplicate ids; the DELETE only tests membership, so duplicates are
irrelevant and the dict is modelled as the plain list of rows. `running_ids`
holds the `internalMeetingID` texts of live backend meetings (`findtext` may
return None, hence the option type). -/
def forget_ids (all_meetings : List PMeeting) (sid : Nat)
    (running_ids : List (Option String)) : List (Option String) :=
  let meetings := List.filter (fun m => m.server_fk == sid) all_meetings
  (List.filter (fun m => !List.contains running_ids m.internal_id) meetings).map
    (fun m => m.internal_id)

/-- Embedding of the reconciliation DELETE of poll_one (services/poller.py
lines 157-172): `DELETE FROM meetings WHERE internal_id IN forget_ids`.
Returns the meetings table after the delete. -/
def poll_one_delete (all_meetings : List PMeeting) (sid : Nat)
    (running_ids : List (Option String)) : List PMeeting :=
  let fids := forget_ids all_meetings sid running_ids
  List.filter (fun m => !sql_in m.internal_id fids) all_meetings

/-! ## isMeetingRunning (web/bbbapi.py: handle_is_meeting_running) -/

/-- Result of `scalar_one()` over a filtered select: exactly one row, no row
(NoResultFound), or several rows (MultipleResultsFound). -/
inductive LookupResult
  | found (m : Meeting)
  | noResult
  | multiple
deriving Repr

/-- Embedding of `ctx.require_meeting()` (web/bbbapi.py lines 121-140): select
the tenant's Meetings whose `internal_id` or `external_id` equals the given
meetingID and take `scalar_one`. NoResultFound becomes the BBB `notFound`
error. -/
def require_meeting (meetings : List Meeting) (tid : Nat) (mid : String) : LookupResult :=
  match List.filter
      (fun m => m.tenant_fk == tid &&
        (m.internal_id == some mid || m.external_id == mid)) meetings with
  | [] => LookupResult.noResult
  | [m] => LookupResult.found m
  | _ => LookupResult.multiple

/-- Response of the isMeetingRunning handler. -/
inductive IMRResponse
  /-- BBB SUCCESS envelope with the given `running` value. -/
  | successRunning (running : Bool)
  /-- An unexpected exception surfaced as internalError by the api wrapper. -/
  | internalError
deriving DecidableEq, Repr

/-- Outcome of one isMeetingRunning request: the response, the database left
behind, and the server contacted upstream (none when no backend call is
made). -/
structure IMROut where
  response : IMRResponse
  db : DB
  contacted : Option Nat
deriving Repr

/-- Embedding of `handle_is_meeting_running` (web/bbbapi.py lines 492-523),
after tenant and checksum verification succeeded. If `require_meeting` raises
the BBB notFound error the handler catches it and answers SUCCESS with
running=false without contacting any backend. Otherwise it forwards to the
meeting's server (oracle `upstream_running`) and, when the backend answers
running=false, forgets the local meeting. -/
def handle_is_meeting_running (db : DB) (tid : Nat) (mid : String)
    (upstream_running : Bool) : IMROut :=
  match require_meeting db.meetings tid mid with
  | LookupResult.noResult =>
      -- Not an error: SUCCESS, running=false
      ⟨IMRResponse.successRunning false, db, none⟩
  | LookupResult.multiple => ⟨IMRResponse.internalError, db, none⟩
  | LookupResult.found m =>
      let db1 := if upstream_running then db
        else { db with meetings := List.filter (fun x => x.id != m.id) db.meetings }
      ⟨IMRResponse.successRunning upstream_running, db1, some m.server_fk⟩

/-- The meeting row minted by a fresh create: new uuid, no internal id yet,
bound to the chosen server. -/
def freshMeeting (ext : String) (u mid : Nat) (tenant : Tenant) (srv : Server) : Meeting :=
  ⟨mid, ext, none, u, tenant.id, srv.id⟩

/-- The parameter rewriting and callback interception a fresh create performs
before forwarding: scoped meetingID, the injected meta_bbblb keys, then
`_intercept_callbacks`. -/
def freshIC (cfg : BBBLBConfig) (params : Params) (tenant : Tenant) (ext : String)
    (u mid cid : Nat) (srv : Server) : Params × List Callback :=
  intercept_callbacks cfg
    (pset (pset (pset (pset (pset params "meetingID" (add_scope ext tenant.name))
      "meta_bbblb-uuid" (toString u)) "meta_bbblb-origin" cfg.DOMAIN)
      "meta_bbblb-tenant" tenant.name) "meta_bbblb-server" srv.domain)
    (freshMeeting ext u mid tenant srv) tenant srv true cid

/-- The database with one server's load bumped, everything else untouched. -/
def bumped (db0 : DB) (sid : Nat) (delta : Int) : DB :=
  { db0 with servers := increment_load db0.servers sid delta }

/-! ## Concrete fixtures used by the evaluation theorems -/

/-- Fixture: server A, enabled and AVAILABLE with load 5. -/
def serverA : Server := ⟨1, "a.example", "secA", true, ServerHealth.AVAILABLE, 0, 0, 5⟩

/-- Fixture: server B, enabled and AVAILABLE with load 2. -/
def serverB : Server := ⟨2, "b.example", "secB", true, ServerHealth.AVAILABLE, 0, 0, 2⟩

/-- Fixture: tenant t1. -/
def tenant1 : Tenant := ⟨1, "t1", "t1.example", "tsec", true⟩

/-- Fixture: a configuration with LOADFACTOR_INITIAL = LOADFACTOR_MEETING = 1
and WEBHOOK_RETRY = 3, POLL_FAIL = 3, POLL_RECOVER = 2. -/
def cfg1 : BBBLBConfig := ⟨"lb.example", "gsec", 1, 1, 3, 3, 2⟩

/-- Fixture: two available servers, no meetings, no callbacks. -/
def dbTwoServers : DB := ⟨[serverA, serverB], [], []⟩

/-- Fixture: a single available server, no meetings, no callbacks. -/
def dbOneServer : DB := ⟨[serverB], [], []⟩

/-- Fixture: minimal create parameters. -/
def paramsPlain : Params := [("meetingID", "m1"), ("name", "Room")]

/-- Fixture: create parameters carrying a frontend meetingEndedURL. -/
def paramsWithEnd : Params :=
  [("meetingID", "m1"), ("name", "Room"), ("meetingEndedURL", "https://fe.example/cb")]

/-- Fixture: the live meeting m1 of tenant t1, bound to server B. -/
def meetingX : Meeting := ⟨10, "m1", some "iid0", 7, 1, 2⟩

/-- Fixture: database already holding `meetingX`. -/
def dbExisting : DB := ⟨[serverA, serverB], [meetingX], []⟩

/-- Fixture: the database as the first create call of the idempotence witness
leaves it: server A bumped to load 7, the meeting patched with its backend
internal id. -/
def dbAfterFirstCreate : DB :=
  ⟨[⟨1, "a.example", "secA", true, ServerHealth.AVAILABLE, 0, 0, 7⟩, serverB],
   [⟨10, "m1", some "iid1", 7, 1, 1⟩], []⟩

/-- Fixture: the parameters that first create call forwarded upstream. -/
def sentFirstCreate : Params :=
  [("meetingID", "t1:m1"), ("name", "Room"), ("meta_bbblb-uuid", "7"),
   ("meta_bbblb-origin", "lb.example"), ("meta_bbblb-tenant", "t1"),
   ("meta_bbblb-server", "a.example"),
   ("meetingEndedURL", "/api/v1/callback/7/end/hmac-sha256:gsec:bbblb:callback:end:7")]

/-- Fixture: a database holding one live meeting with uuid 7 and its single
active END Callback row. -/
def dbWithEndCb : DB :=
  ⟨[serverB], [⟨10, "m1", some "iid1", 7, 1, 2⟩],
   [⟨20, 7, "END", 1, 2, some "https://fe.example/cb"⟩]⟩

/-! ## Structural lemmas about the create path -/

/-- The END rows of an interception: at most one element, carrying the
meeting's uuid, the first fresh id and type END. -/
lemma intercept_end_cbs_spec (orig_url : Option String) (is_new : Bool)
    (meeting : Meeting) (tenant : Tenant) (server : Server) (cid : Nat) :
    ∀ c ∈ intercept_end_cbs orig_url is_new meeting tenant server cid,
      c.uuid = meeting.uuid ∧ c.id = cid ∧ c.type = CALLBACK_TYPE_END := by
  intro c hc
  unfold intercept_end_cbs at hc
  split at hc
  · simp only [List.mem_singleton] at hc
    subst hc
    exact ⟨rfl, rfl, rfl⟩
  · cases hc

/-- The END rows of an interception form a list of length at most one. -/
lemma intercept_end_cbs_len (orig_url : Option String) (is_new : Bool)
    (meeting : Meeting) (tenant : Tenant) (server : Server) (cid : Nat) :
    (intercept_end_cbs orig_url is_new meeting tenant server cid).length ≤ 1 := by
  unfold intercept_end_cbs
  split
  · exact Nat.le_refl 1
  · exact Nat.zero_le 1

/-- The REC rows of an interception: typed REC, carrying the meeting's uuid,
with ids strictly above `cid`. -/
lemma intercept_rec_cbs_spec (rec_urls : List String) (is_new : Bool)
    (meeting : Meeting) (tenant : Tenant) (server : Server) (cid : Nat) :
    ∀ c ∈ intercept_rec_cbs rec_urls is_new meeting tenant server cid,
      c.uuid = meeting.uuid ∧ cid ≤ c.id ∧ c.type = CALLBACK_TYPE_REC := by
  intro c hc
  unfold intercept_rec_cbs at hc
  split at hc
  · rcases List.mem_map.mp hc with ⟨p, hp, rfl⟩
    exact ⟨rfl, by show cid ≤ cid + 1 + p.1; omega, rfl⟩
  · cases hc

/-- Every callback row produced by `_intercept_callbacks` carries the
meeting's uuid and an id at or above the first fresh id `cid` (autoincrement
primary keys). -/
lemma intercept_cbs_uuid_id (cfg : BBBLBConfig) (params : Params) (meeting : Meeting)
    (tenant : Tenant) (server : Server) (is_new : Bool) (cid : Nat) :
    ∀ c ∈ (intercept_callbacks cfg params meeting tenant server is_new cid).2,
      c.uuid = meeting.uuid ∧ cid ≤ c.id := by
  intro c hc
  unfold intercept_callbacks at hc
  dsimp only at hc
  split at hc <;> dsimp only at hc
  · rcases List.mem_append.mp hc with hc2 | hc3
    · rcases List.mem_append.mp hc2 with hce | hcr
      · rcases intercept_end_cbs_spec _ _ _ _ _ _ c hce with ⟨h1, h2, -⟩
        exact ⟨h1, h2 ▸ Nat.le_refl cid⟩
      · rcases intercept_rec_cbs_spec _ _ _ _ _ _ c hcr with ⟨h1, h2, -⟩
        exact ⟨h1, h2⟩
    · split at hc3
      · simp only [List.mem_singleton] at hc3
        subst hc3
        refine ⟨rfl, ?_⟩
        show cid ≤ cid + 1 + _
        omega
      · cases hc3
  · rcases List.mem_append.mp hc with hce | hcr
    · rcases intercept_end_cbs_spec _ _ _ _ _ _ c hce with ⟨h1, h2, -⟩
      exact ⟨h1, h2 ▸ Nat.le_refl cid⟩
    · rcases intercept_rec_cbs_spec _ _ _ _ _ _ c hcr with ⟨h1, h2, -⟩
      exact ⟨h1, h2⟩

/-- The END-typed rows among the callbacks produced by one
`_intercept_callbacks` run number at most one: only the meetingEndedURL
interception creates an END row; recording-ready rows are typed REC and the
JWT-proxied row carries its meta typename. -/
lemma intercept_cbs_end_le_one (cfg : BBBLBConfig) (params : Params) (meeting : Meeting)
    (tenant : Tenant) (server : Server) (is_new : Bool) (cid : Nat) :
    (List.filter (fun c => c.type == CALLBACK_TYPE_END)
      (intercept_callbacks cfg params meeting tenant server is_new cid).2).length ≤ 1 := by
  have hrecnil : ∀ (urls : List String),
      List.filter (fun c => c.type == CALLBACK_TYPE_END)
        (intercept_rec_cbs urls is_new meeting tenant server cid) = [] := by
    intro urls
    rw [List.filter_eq_nil_iff]
    intro c hc
    rcases intercept_rec_cbs_spec _ _ _ _ _ _ c hc with ⟨-, -, ht⟩
    simp [ht, CALLBACK_TYPE_REC, CALLBACK_TYPE_END]
  have hendlen : ∀ (o : Option String),
      (List.filter (fun c => c.type == CALLBACK_TYPE_END)
        (intercept_end_cbs o is_new meeting tenant server cid)).length ≤ 1 :=
    fun o => Nat.le_trans (List.Sublist.length_le (List.filter_sublist _))
      (intercept_end_cbs_len o _ _ _ _ _)
  unfold intercept_callbacks
  dsimp only
  split <;> dsimp only
  · rw [List.filter_append, List.filter_append, hrecnil, List.append_nil,
      List.length_append]
    have hjwt : ∀ (url : String), (List.filter (fun c => c.type == CALLBACK_TYPE_END)
        (if is_new then
          ([⟨cid + 1 + ((List.filter (fun kv => is_rec_ready_key kv.1)
              (pset (ppop params "meetingEndedURL").2 "meetingEndedURL"
                (end_callback_url cfg.SECRET meeting.uuid))).map (fun kv => kv.2)).length,
            meeting.uuid, jwt_typename "meta_analytics-callback-url", tenant.id,
            server.id, some url⟩] : List Callback)
        else ([] : List Callback))).length = 0 := by
      intro url
      split
      · simp [jwt_typename, py_drop, py_dropRight, CALLBACK_TYPE_END]
      · rfl
    rw [hjwt]
    have := hendlen (ppop params "meetingEndedURL").1
    omega
  · rw [List.filter_append, hrecnil, List.append_nil]
    exact hendlen _

/-- Phase one on the existing-meeting path: when a Meeting for
`(externalId, tenant)` is already stored, the result reuses it, creates
nothing, and returns the parameters untouched. -/
lemma p1_existing_spec (cfg : BBBLBConfig) (db0 : DB) (tenant : Tenant)
    (params : Params) (ext : String) (u mid cid : Nat) (m : Meeting)
    (hext : pget params "meetingID" = some ext)
    (hname : (pget params "name").isNone = false)
    (hsize : ¬ MAX_MEETING_ID_LEN < (add_scope ext tenant.name).length)
    (hsome : find_meeting db0.meetings tenant.id ext = some m) :
    handle_create_p1 cfg db0 tenant params u mid cid =
      Except.ok ⟨db0, m, false, params, []⟩ := by
  unfold handle_create_p1
  rw [hext]
  dsimp only
  rw [if_neg (by rw [hname]; exact Bool.false_ne_true)]
  rw [if_neg hsize]
  rw [hsome]

/-- Phase one on the fresh-meeting path: with no stored Meeting and an
available best server, the server load is incremented, the fresh meeting row
is appended, the parameters are rewritten and the intercepted callback rows
are persisted. -/
lemma p1_fresh_spec (cfg : BBBLBConfig) (db0 : DB) (tenant : Tenant)
    (params : Params) (ext : String) (u mid cid : Nat) (srv : Server)
    (hext : pget params "meetingID" = some ext)
    (hname : (pget params "name").isNone = false)
    (hsize : ¬ MAX_MEETING_ID_LEN < (add_scope ext tenant.name).length)
    (hnone : find_meeting db0.meetings tenant.id ext = none)
    (hs : select_best db0.servers = some srv) :
    handle_create_p1 cfg db0 tenant params u mid cid =
      Except.ok ⟨
        ⟨increment_load db0.servers srv.id (cfg.LOADFACTOR_INITIAL + cfg.LOADFACTOR_MEETING),
         db0.meetings ++ [freshMeeting ext u mid tenant srv],
         db0.callbacks ++ (freshIC cfg params tenant ext u mid cid srv).2⟩,
        freshMeeting ext u mid tenant srv, true,
        (freshIC cfg params tenant ext u mid cid srv).1,
        (freshIC cfg params tenant ext u mid cid srv).2⟩ := by
  unfold handle_create_p1
  rw [hext]
  dsimp only
  rw [if_neg (by rw [hname]; exact Bool.false_ne_true)]
  rw [if_neg hsize]
  rw [hnone, hs]
  dsimp only
  unfold get_or_create_meeting
  dsimp only
  rw [hnone]
  dsimp only
  unfold freshIC freshMeeting
  cases hic : (intercept_callbacks cfg
      (pset (pset (pset (pset (pset params "meetingID" (add_scope ext tenant.name))
        "meta_bbblb-uuid" (toString u)) "meta_bbblb-origin" cfg.DOMAIN)
        "meta_bbblb-tenant" tenant.name) "meta_bbblb-server" srv.domain)
      ⟨mid, ext, none, u, tenant.id, srv.id⟩ tenant srv true cid).2 with
  | nil => simp [hic]
  | cons hd tl => simp [hic]

/-- After a fresh meeting was appended and patched by any update that keeps
tenant and external id (such as the internal-id patch of phase two), the
`select_meeting` lookup finds exactly the patched fresh row. -/
lemma find_meeting_after_create (ms : List Meeting) (tid : Nat) (ext : String)
    (mNew : Meeting) (f : Meeting → Meeting)
    (hf : ∀ m, (f m).tenant_fk = m.tenant_fk ∧ (f m).external_id = m.external_id)
    (hnone : find_meeting ms tid ext = none)
    (ht : mNew.tenant_fk = tid) (he : mNew.external_id = ext) :
    find_meeting (List.map f (ms ++ [mNew])) tid ext = some (f mNew) := by
  unfold find_meeting at *
  rw [List.map_append, List.find?_append]
  have h1 : List.find? (fun m => m.tenant_fk == tid && m.external_id == ext)
      (List.map f ms) = none := by
    rw [List.find?_map]
    have hcomp : ((fun m => m.tenant_fk == tid && m.external_id == ext) ∘ f) =
        (fun m => m.tenant_fk == tid && m.external_id == ext) := by
      funext m
      simp [Function.comp, (hf m).1, (hf m).2]
    rw [hcomp, hnone]
    rfl
  rw [h1]
  have hp : ((f mNew).tenant_fk == tid && (f mNew).external_id == ext) = true := by
    simp [(hf mNew).1, (hf mNew).2, ht, he]
  simp [List.find?_cons, hp]

/-! ## C2 -/

/-- C2: a second create with identical inputs, issued while the meeting
created by the first call is live, reuses the same Meeting row (same id, same
uuid) bound to the same Server, and leaves the database exactly as the first
call left it: no Callback row is added and no server load changes. The first
call starts from a database with no meeting for `(ext, tenant)` and some best
server; fresh uuids and row ids of the second call (u2, mid2, cid2) are
irrelevant to its result. -/
theorem create_idempotent (cfg : BBBLBConfig) (db0 : DB) (tenant : Tenant)
    (params : Params) (ext : String) (u1 mid1 cid1 u2 mid2 cid2 : Nat)
    (iid1 iid2 : String) (srv : Server)
    (hext : pget params "meetingID" = some ext)
    (hname : (pget params "name").isNone = false)
    (hsize : ¬ MAX_MEETING_ID_LEN < (add_scope ext tenant.name).length)
    (hnone : find_meeting db0.meetings tenant.id ext = none)
    (hs : select_best db0.servers = some srv) :
    ∀ db1 m1 sent1,
      handle_create cfg db0 tenant params u1 mid1 cid1 (fun _ => Except.ok iid1) =
        CreateOutcome.ok db1 m1 true sent1 →
      ∃ m2, handle_create cfg db1 tenant params u2 mid2 cid2 (fun _ => Except.ok iid2) =
          CreateOutcome.ok db1 m2 false params ∧
        m2.id = m1.id ∧ m2.uuid = m1.uuid ∧ m2.server_fk = m1.server_fk := by
  intro db1 m1 sent1 hcall1
  unfold handle_create at hcall1
  rw [p1_fresh_spec cfg db0 tenant params ext u1 mid1 cid1 srv
    hext hname hsize hnone hs] at hcall1
  unfold handle_create_p2 at hcall1
  dsimp only at hcall1
  rw [CreateOutcome.ok.injEq] at hcall1
  obtain ⟨hdb1, hm1, -, -⟩ := hcall1
  rw [if_pos rfl] at hdb1
  set M1 := freshMeeting ext u1 mid1 tenant srv with hM1
  set patch : Meeting → Meeting := fun m =>
    if m.id == M1.id then { m with internal_id := some iid1 } else m with hpatch
  have hfinddb1 : find_meeting db1.meetings tenant.id ext = some (patch M1) := by
    rw [← hdb1]
    dsimp only
    exact find_meeting_after_create db0.meetings tenant.id ext M1 patch
      (by
        intro m
        rw [hpatch]
        dsimp only
        split <;> exact ⟨rfl, rfl⟩)
      hnone rfl rfl
  refine ⟨patch M1, ?_, ?_, ?_, ?_⟩
  · unfold handle_create
    rw [p1_existing_spec cfg db1 tenant params ext u2 mid2 cid2 (patch M1)
      hext hname hsize hfinddb1]
    unfold handle_create_p2
    simp
  · rw [← hm1]
    simp [hpatch]
  · rw [← hm1]
    simp [hpatch]
  · rw [← hm1]
    simp [hpatch]

/-! ## C4 -/

/-- Deleting the callback rows of this request from the just-committed table
restores the pre-request callbacks, because row ids are allocated upward from
`cid`. -/
lemma filter_not_contains_restore (olds news : List Callback) (cid : Nat)
    (hold : ∀ c ∈ olds, c.id < cid) (hnew : ∀ c ∈ news, cid ≤ c.id) :
    List.filter (fun c => !(List.map (fun cb => cb.id) news).contains c.id)
      (olds ++ news) = olds := by
  rw [List.filter_append]
  have h1 : List.filter (fun c => !(List.map (fun cb => cb.id) news).contains c.id)
      olds = olds := by
    rw [List.filter_eq_self]
    intro c hc
    have hnc : (List.map (fun cb => cb.id) news).contains c.id = false := by
      cases hcont : (List.map (fun cb => cb.id) news).contains c.id with
      | false => rfl
      | true =>
          rcases List.mem_map.mp (List.elem_iff.mp hcont) with ⟨cb, hcb, hid⟩
          have := hnew cb hcb
          have := hold c hc
          omega
    rw [hnc]
    rfl
  have h2 : List.filter (fun c => !(List.map (fun cb => cb.id) news).contains c.id)
      news = [] := by
    rw [List.filter_eq_nil_iff]
    intro c hc
    have hcont : (List.map (fun cb => cb.id) news).contains c.id = true :=
      List.elem_iff.mpr (List.mem_map.mpr ⟨c, ⟨hc, rfl⟩⟩)
    rw [hcont]
    simp
  rw [h1, h2, List.append_nil]

/-- Deleting the fresh meeting row from the just-committed table restores the
pre-request meetings, because its row id is fresh. -/
lemma filter_ne_restore (olds : List Meeting) (mNew : Meeting)
    (hold : ∀ m ∈ olds, m.id ≠ mNew.id) :
    List.filter (fun m => m.id != mNew.id) (olds ++ [mNew]) = olds := by
  rw [List.filter_append]
  have h1 : List.filter (fun m => m.id != mNew.id) olds = olds := by
    rw [List.filter_eq_self]
    intro m hm
    simpa using hold m hm
  have h2 : List.filter (fun m => m.id != mNew.id) [mNew] = [] := by simp
  rw [h1, h2, List.append_nil]

/-- C4 (amended): when the upstream create call fails after this request
created a fresh Meeting, the compensation deletes exactly the Meeting row and
the Callback rows of this request and re-raises the error, restoring the
meetings and callbacks tables to their pre-request state; the server-load
increment of step 4 is not reverted. When the Meeting already existed,
nothing is deleted at all. Row-id freshness (callback ids from `cid` up, the
meeting id `mid` unused) mirrors autoincrement primary keys. -/
theorem create_failure_compensation (cfg : BBBLBConfig) (db0 : DB) (tenant : Tenant)
    (params : Params) (ext : String) (u mid cid : Nat) (e : String) (srv : Server)
    (m : Meeting)
    (hext : pget params "meetingID" = some ext)
    (hname : (pget params "name").isNone = false)
    (hsize : ¬ MAX_MEETING_ID_LEN < (add_scope ext tenant.name).length)
    (hcb : ∀ c ∈ db0.callbacks, c.id < cid)
    (hmid : ∀ m0 ∈ db0.meetings, m0.id ≠ mid) :
    (find_meeting db0.meetings tenant.id ext = none →
      select_best db0.servers = some srv →
      CreateOutcome.dbOf (handle_create cfg db0 tenant params u mid cid
          (fun _ => Except.error e)) =
        some (bumped db0 srv.id (cfg.LOADFACTOR_INITIAL + cfg.LOADFACTOR_MEETING)) ∧
      CreateOutcome.failedErr (handle_create cfg db0 tenant params u mid cid
          (fun _ => Except.error e)) = some e) ∧
    (find_meeting db0.meetings tenant.id ext = some m →
      handle_create cfg db0 tenant params u mid cid (fun _ => Except.error e) =
        CreateOutcome.failed db0 params e) := by
  constructor
  · intro hnone hs
    unfold handle_create
    rw [p1_fresh_spec cfg db0 tenant params ext u mid cid srv hext hname hsize hnone hs]
    unfold handle_create_p2
    dsimp only
    rw [if_pos rfl]
    have hmeet : List.filter
        (fun m0 => m0.id != (freshMeeting ext u mid tenant srv).id)
        (db0.meetings ++ [freshMeeting ext u mid tenant srv]) = db0.meetings :=
      filter_ne_restore db0.meetings (freshMeeting ext u mid tenant srv)
        (fun m0 hm0 => hmid m0 hm0)
    have hcbs : List.filter
        (fun c => !(List.map (fun cb => cb.id)
          (freshIC cfg params tenant ext u mid cid srv).2).contains c.id)
        (db0.callbacks ++ (freshIC cfg params tenant ext u mid cid srv).2) =
        db0.callbacks :=
      filter_not_contains_restore db0.callbacks
        (freshIC cfg params tenant ext u mid cid srv).2 cid hcb
        (fun c hc => (intercept_cbs_uuid_id cfg _ _ tenant srv true cid c hc).2)
    rw [hmeet, hcbs]
    exact ⟨rfl, rfl⟩
  · intro hsome
    unfold handle_create
    rw [p1_existing_spec cfg db0 tenant params ext u mid cid m hext hname hsize hsome]
    unfold handle_create_p2
    simp

/-! ## C5 -/

/-- Phase one gives back either the untouched database with no callback rows
(existing-meeting path) or a database whose callbacks table is the old one
plus this request's rows, all carrying the fresh uuid, with at most one END
row among them (fresh path). -/
lemma p1_callbacks_cases (cfg : BBBLBConfig) (db : DB) (tenant : Tenant)
    (params : Params) (u mid cid : Nat) (r : P1Out)
    (h : handle_create_p1 cfg db tenant params u mid cid = Except.ok r) :
    (r.db = db ∧ r.cbs = []) ∨
    (r.db.callbacks = db.callbacks ++ r.cbs ∧ (∀ c ∈ r.cbs, c.uuid = u) ∧
      (List.filter (fun c => c.type == CALLBACK_TYPE_END) r.cbs).length ≤ 1) := by
  unfold handle_create_p1 at h
  split at h
  · exact absurd h (by simp)
  next ext heq =>
    dsimp only at h
    split at h
    · exact absurd h (by simp)
    split at h
    · exact absurd h (by simp)
    split at h
    next m hfound =>
      left
      rw [Except.ok.injEq] at h
      rw [← h]
      exact ⟨rfl, rfl⟩
    next hnotfound =>
      split at h
      · exact absurd h (by simp)
      next srv hsrv =>
        right
        unfold get_or_create_meeting at h
        dsimp only at h
        rw [hnotfound] at h
        dsimp only at h
        rw [Except.ok.injEq] at h
        rw [← h]
        dsimp only
        refine ⟨?_, ?_, ?_⟩
        · rw [Bool.true_and]
          cases hic : (intercept_callbacks cfg
              (pset (pset (pset (pset (pset params "meetingID" (add_scope ext tenant.name))
                "meta_bbblb-uuid" (toString u)) "meta_bbblb-origin" cfg.DOMAIN)
                "meta_bbblb-tenant" tenant.name) "meta_bbblb-server" srv.domain)
              ⟨mid, ext, none, u, tenant.id, srv.id⟩ tenant srv true cid).2 with
          | nil => simp [hic]
          | cons hd tl => simp [hic]
        · intro c hc
          exact (intercept_cbs_uuid_id cfg _ _ tenant srv true cid c hc).1
        · exact intercept_cbs_end_le_one cfg _ _ tenant srv true cid

/-- Phase two never increases the number of active END Callback rows for any
uuid: on success it only patches the meeting row, on failure it only deletes
rows. -/
lemma countEnd_p2_le (db : DB) (meeting : Meeting) (created : Bool)
    (cbs : List Callback) (upstream : Except String String) (uu : Nat) :
    countEnd (handle_create_p2 db meeting created cbs upstream).1 uu ≤
      countEnd db uu := by
  unfold handle_create_p2 countEnd
  cases upstream with
  | ok iid =>
      cases created
      · exact Nat.le_refl _
      · exact Nat.le_refl _
  | error e =>
      cases created
      · exact Nat.le_refl _
      · exact List.Sublist.length_le
          (List.Sublist.filter _ (List.filter_sublist _))

/-- A create operation's step is phase two applied to phase one's output. -/
lemma step_create_eq (cfg : BBBLBConfig) (db : DB) (tenant : Tenant)
    (params : Params) (u mid cid : Nat) (upstream : Params → Except String String)
    (r : P1Out)
    (h : handle_create_p1 cfg db tenant params u mid cid = Except.ok r) :
    step cfg db (Op.create tenant params u mid cid upstream) =
      (handle_create_p2 r.db r.meeting r.created r.cbs (upstream r.params)).1 := by
  unfold step handle_create
  dsimp only
  rw [h]
  dsimp only
  cases hsnd : (handle_create_p2 r.db r.meeting r.created r.cbs (upstream r.params)).2 with
  | none => rfl
  | some e => rfl

/-- A rejected create persists nothing. -/
lemma step_create_reject (cfg : BBBLBConfig) (db : DB) (tenant : Tenant)
    (params : Params) (u mid cid : Nat) (upstream : Params → Except String String)
    (e : String)
    (h : handle_create_p1 cfg db tenant params u mid cid = Except.error e) :
    step cfg db (Op.create tenant params u mid cid upstream) = db := by
  unfold step handle_create
  dsimp only
  rw [h]
  rfl

/-- Two distinct members force a list length of at least two. -/
lemma two_le_length_of_mem_ne {α : Type} {a b : α} {l : List α}
    (ha : a ∈ l) (hb : b ∈ l) (hne : a ≠ b) : 2 ≤ l.length := by
  induction l with
  | nil => cases ha
  | cons x xs ih =>
      rcases List.mem_cons.mp ha with rfl | ha'
      · rcases List.mem_cons.mp hb with rfl | hb'
        · exact absurd rfl hne
        · have : 1 ≤ xs.length := List.length_pos.mpr (List.ne_nil_of_mem hb')
          simpa [List.length_cons] using Nat.succ_le_succ this
      · rcases List.mem_cons.mp hb with rfl | hb'
        · have : 1 ≤ xs.length := List.length_pos.mpr (List.ne_nil_of_mem ha')
          simpa [List.length_cons] using Nat.succ_le_succ this
        · have := ih ha' hb'
          simp [List.length_cons]
          omega

/-- Deleting the row found by the END-callback lookup leaves no active END
Callback row for that uuid, provided there was at most one. -/
lemma countEnd_after_delete (cbs : List Callback) (u0 : Nat) (cb : Callback)
    (hfind : List.find? (fun c => c.uuid == u0 && c.type == CALLBACK_TYPE_END) cbs =
      some cb)
    (hinv : (List.filter (fun c => c.uuid == u0 && c.type == CALLBACK_TYPE_END)
      cbs).length ≤ 1) :
    List.filter (fun c => c.uuid == u0 && c.type == CALLBACK_TYPE_END)
      (List.filter (fun c2 => c2.id != cb.id) cbs) = [] := by
  rw [List.filter_eq_nil_iff]
  intro c hc hpred
  rcases List.mem_filter.mp hc with ⟨hcmem, hcid⟩
  have hcb_mem : cb ∈ cbs := List.mem_of_find?_eq_some hfind
  have hcb_pred := List.find?_some hfind
  have hne : c ≠ cb := by
    intro hcc
    subst hcc
    simp at hcid
  have h1 : c ∈ List.filter (fun c => c.uuid == u0 && c.type == CALLBACK_TYPE_END) cbs :=
    List.mem_filter.mpr ⟨hcmem, hpred⟩
  have h2 : cb ∈ List.filter (fun c => c.uuid == u0 && c.type == CALLBACK_TYPE_END) cbs :=
    List.mem_filter.mpr ⟨hcb_mem, hcb_pred⟩
  have := two_le_length_of_mem_ne h1 h2 hne
  omega

/-- Forgetting the meeting does not touch the callbacks table. -/
lemma forget_meeting_callbacks (db : DB) (u : Nat) :
    (forget_meeting_by_uuid db u).callbacks = db.callbacks := by
  unfold forget_meeting_by_uuid
  cases List.find? (fun m => m.uuid == u) db.meetings with
  | some m => rfl
  | none => rfl

/-- The END-callback delete never increases any uuid's END count. -/
lemma delete_end_callback_le (db : DB) (u uu : Nat) :
    countEnd (delete_end_callback db u) uu ≤ countEnd db uu := by
  unfold delete_end_callback countEnd
  cases List.find? (fun c => c.uuid == u && c.type == CALLBACK_TYPE_END) db.callbacks with
  | some cb =>
      exact List.Sublist.length_le (List.Sublist.filter _ (List.filter_sublist _))
  | none => exact Nat.le_refl _

/-- After the END-callback delete ran, no active END row for the uuid
remains, provided there was at most one before. -/
lemma delete_end_callback_zero (db : DB) (u : Nat) (hInv : EndCbInv db) :
    countEnd (delete_end_callback db u) u = 0 := by
  unfold delete_end_callback
  cases hfind : List.find? (fun c => c.uuid == u && c.type == CALLBACK_TYPE_END)
      db.callbacks with
  | some cb =>
      unfold countEnd
      dsimp only
      rw [countEnd_after_delete db.callbacks u cb hfind (hInv u)]
      rfl
  | none =>
      unfold countEnd
      have hnil : List.filter (fun c => c.uuid == u && c.type == CALLBACK_TYPE_END)
          db.callbacks = [] := by
        rw [List.filter_eq_nil_iff]
        exact fun c hc => List.find?_eq_none.mp hfind c hc
      rw [hnil]
      rfl

/-- C5 (amended): across every create request and every end-callback hit, at
most one active END Callback row per meeting uuid ever exists (given fresh
uuid minting), and a valid end-callback hit leaves zero active END rows for
its uuid: the row is deleted when it fires. -/
theorem end_callback_at_most_one (cfg : BBBLBConfig) (db : DB) (op : Op)
    (hInv : EndCbInv db) (hFresh : OpFresh db op) :
    EndCbInv (step cfg db op) ∧
    (∀ u0 sig0, op = Op.cbEnd u0 sig0 → sig0 = end_sig cfg.SECRET u0 →
      countEnd (step cfg db op) u0 = 0) := by
  cases op with
  | create tenant params u mid cid upstream =>
      refine ⟨?_, by intro u0 sig0 hop; cases hop⟩
      intro uu
      rcases hp1 : handle_create_p1 cfg db tenant params u mid cid with e | r
      · rw [step_create_reject cfg db tenant params u mid cid upstream e hp1]
        exact hInv uu
      · rw [step_create_eq cfg db tenant params u mid cid upstream r hp1]
        refine Nat.le_trans (countEnd_p2_le r.db r.meeting r.created r.cbs
          (upstream r.params) uu) ?_
        rcases p1_callbacks_cases cfg db tenant params u mid cid r hp1 with
          ⟨hdb, -⟩ | ⟨hcbs, huuid, hend⟩
        · rw [hdb]
          exact hInv uu
        · unfold countEnd
          rw [hcbs, List.filter_append, List.length_append]
          by_cases huu : uu = u
          · subst huu
            have hold : List.filter (fun c => c.uuid == uu && c.type == CALLBACK_TYPE_END)
                db.callbacks = [] := by
              rw [List.filter_eq_nil_iff]
              intro c hcm hcp
              have hcp2 : c.uuid = uu ∧ c.type = CALLBACK_TYPE_END := by
                simpa using hcp
              exact hFresh c hcm hcp2.1
            have hnew : (List.filter (fun c => c.uuid == uu && c.type == CALLBACK_TYPE_END)
                r.cbs).length ≤ 1 := by
              rw [← List.filter_filter]
              exact Nat.le_trans (List.length_filter_le _ _) hend
            rw [hold]
            simpa using hnew
          · have hnew : List.filter (fun c => c.uuid == uu && c.type == CALLBACK_TYPE_END)
                r.cbs = [] := by
              rw [List.filter_eq_nil_iff]
              intro c hcm hcp
              have hcp2 : c.uuid = uu ∧ c.type = CALLBACK_TYPE_END := by
                simpa using hcp
              exact huu (hcp2.1 ▸ huuid c hcm)
            rw [hnew]
            simpa using hInv uu
  | cbEnd u0 sig0 =>
      by_cases hsig : sig0 ≠ end_sig cfg.SECRET u0
      · have hstep : step cfg db (Op.cbEnd u0 sig0) = db := by
          show (handle_callback_end cfg db u0 sig0).1 = db
          unfold handle_callback_end
          rw [if_pos hsig]
        rw [hstep]
        refine ⟨hInv, ?_⟩
        intro u1 sig1 hop hval
        rw [Op.cbEnd.injEq] at hop
        obtain ⟨hu, hs2⟩ := hop
        subst hu
        subst hs2
        exact absurd hval hsig
      · have hstep : step cfg db (Op.cbEnd u0 sig0) =
            forget_meeting_by_uuid (delete_end_callback db u0) u0 := by
          show (handle_callback_end cfg db u0 sig0).1 = _
          unfold handle_callback_end
          rw [if_neg hsig]
        rw [hstep]
        constructor
        · intro uu
          unfold countEnd
          rw [forget_meeting_callbacks]
          exact Nat.le_trans (delete_end_callback_le db u0 uu) (hInv uu)
        · intro u1 sig1 hop hval
          rw [Op.cbEnd.injEq] at hop
          obtain ⟨hu, -⟩ := hop
          subst hu
          unfold countEnd
          rw [forget_meeting_callbacks]
          exact delete_end_callback_zero db u0 hInv

/-! ## C1 -/

/-- C1: the claim says a fresh create binds the meeting to a server with
minimal load among the enabled AVAILABLE servers. The code orders by
`Server.load.desc()` (model.py line 455): with A(load 5) and B(load 2) both
enabled and AVAILABLE, `select_best` returns A and the create call binds the
new meeting to A, the maximal-load server, contradicting the claim and the
spec scenario that m1 must bind to B. -/
theorem create_binds_max_load_server :
    select_best [serverA, serverB] = some serverA ∧
    serverB.load < serverA.load ∧
    Except.map (fun r => r.meeting.server_fk)
      (handle_create_p1 cfg1 dbTwoServers tenant1 paramsPlain 7 10 20)
      = Except.ok serverA.id ∧
    select_best [] = none := by
  decide

/-! ## C3 -/

/-- C3: the claim says a create that finds an existing live Meeting still has
its forwarded parameters rewritten (scoped meetingID, meta_bbblb injection,
callback interception). In the code all of step 6 sits inside the
`if not meeting:` branch (web/bbbapi.py lines 321-357), so with `meetingX`
already stored the forwarded parameters are returned verbatim: meetingID
stays unscoped, no meta_bbblb keys are injected, and meetingEndedURL is not
intercepted. -/
theorem create_existing_meeting_params_not_rewritten :
    handle_create_p1 cfg1 dbExisting tenant1 paramsWithEnd 8 11 21 =
      Except.ok ⟨dbExisting, meetingX, false, paramsWithEnd, []⟩ ∧
    pget paramsWithEnd "meetingID" = some "m1" ∧
    add_scope "m1" tenant1.name = "t1:m1" ∧
    pget paramsWithEnd "meta_bbblb-uuid" = none ∧
    pget paramsWithEnd "meetingEndedURL" = some "https://fe.example/cb" := by
  decide

/-! ## C4 counterexample -/

/-- C4 counterexample: with one server of load 2 and loadfactors 1 + 1, a
fresh create whose upstream call fails re-raises the error, but the resulting
database is not the initial one: the server-load increment of step 4 is never
reverted, so the database is not "as if the create had never happened". -/
theorem create_failure_rollback_counterexample :
    CreateOutcome.failedErr
      (handle_create cfg1 dbOneServer tenant1 paramsPlain 7 10 20
        (fun _ => Except.error "boom")) = some "boom" ∧
    CreateOutcome.dbOf
      (handle_create cfg1 dbOneServer tenant1 paramsPlain 7 10 20
        (fun _ => Except.error "boom")) ≠ some dbOneServer ∧
    CreateOutcome.dbOf
      (handle_create cfg1 dbOneServer tenant1 paramsPlain 7 10 20
        (fun _ => Except.error "boom")) =
      some ⟨[⟨2, "b.example", "secB", true, ServerHealth.AVAILABLE, 0, 0, 4⟩], [], []⟩ := by
  decide

/-! ## C5 counterexample -/

/-- C5 counterexample: a create without a meetingEndedURL parameter persists a
live Meeting with zero END Callback rows, so "exactly one active END Callback
row per live meeting" fails; at most one is the invariant the code maintains. -/
theorem end_callback_exactly_one_counterexample :
    (step cfg1 dbOneServer
        (Op.create tenant1 paramsPlain 7 10 20 (fun _ => Except.ok "iid1"))).meetings ≠ [] ∧
    ¬ EveryMeetingHasOneEndCb
      (step cfg1 dbOneServer
        (Op.create tenant1 paramsPlain 7 10 20 (fun _ => Except.ok "iid1"))) := by
  constructor
  · decide
  · intro h
    have := h ⟨10, "m1", some "iid1", 7, 1, 2⟩ (by decide)
    revert this
    decide

/-! ## C6 -/

/-- C6: the claim says at most WEBHOOK_RETRY attempts, none after the first
success, with waits of 10 s before the first retry and 20 s before the
second. The loop body of `trigger_callback` (api/bbblbapi.py lines 57-66)
contains no break after a successful request, so with WEBHOOK_RETRY = 3 all
three attempts are issued even when the first succeeds; and the failure path
sleeps `10 * i` with `i` starting at 0, so the wait before the first retry is
0 s and before the second 10 s. -/
theorem trigger_callback_attempts_eval :
    trigger_callback 3 (fun _ => true) = ([0, 1, 2], []) ∧
    trigger_callback 3 (fun _ => false) = ([0, 1, 2], [0, 10, 20]) := by
  decide

/-! ## C7 -/

/-- C7 counterexample: with POLL_FAIL = 3 and POLL_RECOVER = 2, the result
sequence [ok, err, err, err] from a fresh OFFLINE server does not produce the
health sequence OFFLINE, UNSTABLE, UNSTABLE, UNSTABLE, OFFLINE claimed: after
the third error the error counter has only reached 3, `errors < POLL_FAIL`
still held on entry, so the server stays UNSTABLE. -/
theorem health_trace_counterexample :
    health_trace 3 2 freshServer
        [PollOutcome.ok, PollOutcome.err, PollOutcome.err, PollOutcome.err] ≠
      [ServerHealth.OFFLINE, ServerHealth.UNSTABLE, ServerHealth.UNSTABLE,
       ServerHealth.UNSTABLE, ServerHealth.OFFLINE] := by
  decide

/-- C7 amended: with POLL_FAIL = 3 and POLL_RECOVER = 2, [ok, err, err, err]
from a fresh OFFLINE server produces OFFLINE, UNSTABLE, UNSTABLE, UNSTABLE,
UNSTABLE (a fourth consecutive error is needed to reach OFFLINE), and
[ok, ok, ok] produces OFFLINE, UNSTABLE, UNSTABLE, AVAILABLE as claimed. -/
theorem health_trace_sequences :
    health_trace 3 2 freshServer
        [PollOutcome.ok, PollOutcome.err, PollOutcome.err, PollOutcome.err] =
      [ServerHealth.OFFLINE, ServerHealth.UNSTABLE, ServerHealth.UNSTABLE,
       ServerHealth.UNSTABLE, ServerHealth.UNSTABLE] ∧
    health_trace 3 2 freshServer
        [PollOutcome.ok, PollOutcome.err, PollOutcome.err, PollOutcome.err,
         PollOutcome.err] =
      [ServerHealth.OFFLINE, ServerHealth.UNSTABLE, ServerHealth.UNSTABLE,
       ServerHealth.UNSTABLE, ServerHealth.UNSTABLE, ServerHealth.OFFLINE] ∧
    health_trace 3 2 freshServer [PollOutcome.ok, PollOutcome.ok, PollOutcome.ok] =
      [ServerHealth.OFFLINE, ServerHealth.UNSTABLE, ServerHealth.UNSTABLE,
       ServerHealth.AVAILABLE] := by
  decide

/-! ## C8 -/

/-- A successful `try_acquire` leaves the lock row owned by the caller with
`ts = now`. -/
lemma try_acquire_success_state (now : Int) (fa : Option Int) (me : String)
    (row : Option LockRow) (h : (try_acquire now fa me row).1 = true) :
    (try_acquire now fa me row).2 = some ⟨me, now⟩ := by
  unfold try_acquire at h ⊢
  cases hd : force_delete now fa row with
  | none => rfl
  | some r => rw [hd] at h; exact absurd h (by simp)

/-- A held row that is not expired survives the stale-row delete. -/
lemma force_delete_not_expired (now : Int) (fa : Option Int) (p : String) (t : Int)
    (h : ¬ lease_expired t (now, fa)) :
    force_delete now fa (some ⟨p, t⟩) = some ⟨p, t⟩ := by
  unfold force_delete lease_expired at *
  cases fa with
  | none => rfl
  | some fr => exact if_neg h

/-- Any `try_acquire` against a held, unexpired row fails and leaves the row
untouched, whoever the caller is (the lock is not even re-entrant). -/
lemma try_acquire_held_fails (now : Int) (fa : Option Int) (q p : String) (t : Int)
    (h : ¬ lease_expired t (now, fa)) :
    try_acquire now fa q (some ⟨p, t⟩) = (false, some ⟨p, t⟩) := by
  unfold try_acquire
  rw [force_delete_not_expired now fa p t h]

/-- C8: after `try_acquire` returns true to process p at time t, every
`try_acquire` attempt by q (with q ≠ p) fails and p stays the recorded owner,
as long as each attempt happens while the row is not older than that
attempt's force window (i.e. until p releases or the lease expires). The
q ≠ p hypothesis mirrors the claim; the code in fact rejects every caller,
p included, as the lock is not re-entrant. -/
theorem lease_sole_holder (p q : String) (t : Int) (fa0 : Option Int)
    (row0 : Option LockRow) (_hqp : q ≠ p)
    (attempts : List (Int × Option Int))
    (hlive : ∀ a ∈ attempts, ¬ lease_expired t a)
    (hacq : (try_acquire t fa0 p row0).1 = true) :
    run_acquires q attempts (try_acquire t fa0 p row0).2 =
      (List.map (fun _ => false) attempts, some ⟨p, t⟩) := by
  rw [try_acquire_success_state t fa0 p row0 hacq]
  clear hacq
  induction attempts with
  | nil => rfl
  | cons a as_ ih =>
      have ha : ¬ lease_expired t a := hlive a (List.mem_cons_self a as_)
      have hstep := try_acquire_held_fails a.1 a.2 q p t ha
      simp only [run_acquires, hstep, List.map_cons]
      rw [ih (fun x hx => hlive x (List.mem_cons_of_mem a hx))]

/-- C8 witness: p acquires the free lock at time 0; attempts by q at times 5
(force window 10, not expired) and 8 (no force window) both fail and p stays
the owner. -/
theorem lease_sole_holder_witness :
    run_acquires "proc-q" [(5, some 10), (8, none)]
        (try_acquire 0 none "proc-p" none).2 =
      ([false, false], some ⟨"proc-p", 0⟩) :=
  lease_sole_holder "proc-p" "proc-q" 0 none none (by decide)
    [(5, some 10), (8, none)] (by decide) (by decide)

/-! ## C9 -/

/-- C9: over any meetings table in which non-null internal ids are unique (the
schema's unique constraint on `internal_id`), the reconciliation DELETE of
poll_one removes exactly the meetings of the polled server whose internal_id
is non-null and not in the live set reported by the backend; meetings whose
internal_id is still null are never deleted, even though the None key does
land in forget_ids, because SQL `IN` never matches NULL. -/
theorem poll_one_deletes_exactly (ms : List PMeeting) (sid : Nat)
    (running : List (Option String))
    (huniq : ∀ m1 ∈ ms, ∀ m2 ∈ ms,
      m1.internal_id ≠ none → m1.internal_id = m2.internal_id → m1 = m2) :
    ∀ m ∈ ms, (m ∉ poll_one_delete ms sid running ↔
      (m.server_fk = sid ∧ m.internal_id ≠ none ∧ m.internal_id ∉ running)) := by
  intro m hm
  unfold poll_one_delete
  rw [show (m ∉ List.filter (fun x => !sql_in x.internal_id (forget_ids ms sid running)) ms
        ↔ ¬(m ∈ ms ∧ (!sql_in m.internal_id (forget_ids ms sid running)) = true))
    from not_congr List.mem_filter]
  constructor
  · intro hnot
    have hsql : sql_in m.internal_id (forget_ids ms sid running) = true := by
      by_contra hs
      exact hnot ⟨hm, by simp [Bool.not_eq_true] at hs ⊢; exact hs⟩
    unfold sql_in at hsql
    cases hv : m.internal_id with
    | none => rw [hv] at hsql; cases hsql
    | some s =>
        rw [hv] at hsql
        have hmem : (some s : Option String) ∈ forget_ids ms sid running := by
          have : List.elem (some s) (forget_ids ms sid running) = true := hsql
          exact List.elem_iff.mp this
        unfold forget_ids at hmem
        rcases List.mem_map.mp hmem with ⟨m2, hm2, hid2⟩
        rcases List.mem_filter.mp hm2 with ⟨hm2f, hm2run⟩
        rcases List.mem_filter.mp hm2f with ⟨hm2ms, hm2sid⟩
        have hm2ne : m2.internal_id ≠ none := by
          rw [hid2]; exact Option.some_ne_none s
        have hm2eq : m2.internal_id = m.internal_id := by rw [hid2, hv]
        have hmm2 : m2 = m := huniq m2 hm2ms m hm hm2ne hm2eq
        refine ⟨by have := hm2sid; rw [hmm2] at this; simpa using this,
          Option.some_ne_none s, ?_⟩
        intro hrun
        rw [Bool.not_eq_eq_eq_not, Bool.not_true] at hm2run
        rw [hid2] at hm2run
        rw [show List.contains running (some s) = List.elem (some s) running
          from rfl] at hm2run
        rw [List.elem_iff.mpr hrun] at hm2run
        cases hm2run
  · rintro ⟨hsid, hne, hnrun⟩
    intro hc
    rcases hc with ⟨-, hkeep⟩
    cases hv : m.internal_id with
    | none => exact hne hv
    | some s =>
        have hmemf : m ∈ List.filter (fun x => !List.contains running x.internal_id)
            (List.filter (fun x => x.server_fk == sid) ms) := by
          refine List.mem_filter.mpr ⟨List.mem_filter.mpr ⟨hm, by simpa using hsid⟩, ?_⟩
          have : List.elem m.internal_id running = false := by
            cases helem : List.elem m.internal_id running with
            | false => rfl
            | true => exact absurd (List.elem_iff.mp helem) hnrun
          simpa [List.contains] using this
        have hmem : (some s : Option String) ∈ forget_ids ms sid running := by
          unfold forget_ids
          exact List.mem_map.mpr ⟨m, hmemf, by rw [hv]⟩
        have hsql : sql_in m.internal_id (forget_ids ms sid running) = true := by
          unfold sql_in
          rw [hv]
          exact List.elem_iff.mpr hmem
        rw [hsql] at hkeep
        cases hkeep

/-- C9 witness: server 1 has a null-id meeting (kept), a live meeting (kept)
and a stale meeting (deleted); server 2's meeting is untouched. -/
theorem poll_one_deletes_exactly_witness :
    (⟨3, 1, some "stale"⟩ : PMeeting) ∉
      poll_one_delete [⟨1, 1, none⟩, ⟨2, 1, some "live"⟩, ⟨3, 1, some "stale"⟩,
        ⟨4, 2, some "other"⟩] 1 [some "live"] :=
  (poll_one_deletes_exactly
    [⟨1, 1, none⟩, ⟨2, 1, some "live"⟩, ⟨3, 1, some "stale"⟩, ⟨4, 2, some "other"⟩]
    1 [some "live"] (by decide) ⟨3, 1, some "stale"⟩ (by decide)).mpr (by decide)

/-! ## C10 -/

/-- C10: an isMeetingRunning request (after tenant and checksum verification)
whose meetingID matches no stored Meeting of the tenant by internal or
external id is answered with SUCCESS and running=false, no backend server is
contacted, and the database is unchanged. -/
theorem is_meeting_running_unknown_meeting (db : DB) (tid : Nat) (mid : String)
    (upstream_running : Bool)
    (hnone : ∀ m ∈ db.meetings,
      ¬(m.tenant_fk = tid ∧ (m.internal_id = some mid ∨ m.external_id = mid))) :
    handle_is_meeting_running db tid mid upstream_running =
      ⟨IMRResponse.successRunning false, db, none⟩ := by
  have hfilter : List.filter
      (fun m => m.tenant_fk == tid &&
        (m.internal_id == some mid || m.external_id == mid)) db.meetings = [] := by
    rw [List.filter_eq_nil_iff]
    intro m hmem
    have hni := hnone m hmem
    simp only [Bool.and_eq_true, Bool.or_eq_true, beq_iff_eq]
    tauto
  unfold handle_is_meeting_running require_meeting
  rw [hfilter]

/-- C10 witness: `dbExisting` stores only meeting m1 of tenant 1, so a lookup
by tenant 2 and meetingID mX finds nothing and is answered locally. -/
theorem is_meeting_running_unknown_meeting_witness :
    handle_is_meeting_running dbExisting 2 "mX" true =
      ⟨IMRResponse.successRunning false, dbExisting, none⟩ :=
  is_meeting_running_unknown_meeting dbExisting 2 "mX" true (by decide)

/-- C2 witness: a concrete first create on two available servers followed by
an identical second create; the second returns the same row (id 10, uuid 7,
server A) and leaves the database untouched. -/
theorem create_idempotent_witness :
    ∃ m2, handle_create cfg1 dbAfterFirstCreate tenant1 paramsPlain 8 11 21
        (fun _ => Except.ok "iid2") =
      CreateOutcome.ok dbAfterFirstCreate m2 false paramsPlain ∧
      m2.id = 10 ∧ m2.uuid = 7 ∧ m2.server_fk = 1 :=
  create_idempotent cfg1 dbTwoServers tenant1 paramsPlain "m1" 7 10 20 8 11 21
    "iid1" "iid2" serverA (by decide) (by decide) (by decide) (by decide) (by decide)
    dbAfterFirstCreate ⟨10, "m1", none, 7, 1, 1⟩ sentFirstCreate (by decide)

/-- C4 witness: a fresh create on the one-server database whose upstream call
fails leaves only the load bump behind and re-raises the error. -/
theorem create_failure_compensation_witness :
    CreateOutcome.dbOf (handle_create cfg1 dbOneServer tenant1 paramsPlain 7 10 20
        (fun _ => Except.error "boom")) =
      some (bumped dbOneServer serverB.id
        (cfg1.LOADFACTOR_INITIAL + cfg1.LOADFACTOR_MEETING)) ∧
    CreateOutcome.failedErr (handle_create cfg1 dbOneServer tenant1 paramsPlain 7 10 20
        (fun _ => Except.error "boom")) = some "boom" :=
  (create_failure_compensation cfg1 dbOneServer tenant1 paramsPlain "m1" 7 10 20 "boom"
      serverB meetingX (by decide) (by decide) (by decide) (by decide) (by decide)).1
    (by decide) (by decide)

/-- C5 witness: hitting the end-callback URL with the valid signature on a
database holding one END Callback row preserves the at-most-one invariant and
leaves zero active END rows for the meeting's uuid. -/
theorem end_callback_at_most_one_witness :
    EndCbInv (step cfg1 dbWithEndCb (Op.cbEnd 7 (end_sig "gsec" 7))) ∧
    countEnd (step cfg1 dbWithEndCb (Op.cbEnd 7 (end_sig "gsec" 7))) 7 = 0 :=
  ⟨(end_callback_at_most_one cfg1 dbWithEndCb (Op.cbEnd 7 (end_sig "gsec" 7))
      (fun _ => List.length_filter_le _ _) trivial).1,
   (end_callback_at_most_one cfg1 dbWithEndCb (Op.cbEnd 7 (end_sig "gsec" 7))
      (fun _ => List.length_filter_le _ _) trivial).2 7 (end_sig "gsec" 7) rfl rfl⟩

end BBBLB
